import Mathlib

/-!
Shallow embedding of the resilient API-access core of the Tibber Unofficial
Home Assistant integration: `cache.py` (`ApiCache`, `SmartCache`),
`rate_limiter.py` (`RateLimiter`, `MultiTierRateLimiter`) and `api.py`
(`TibberApiClient`).

Modelling conventions:
* Python floats (`time.time()`, `time.monotonic()`, token counts, TTLs,
  backoff delays) are modelled as exact rationals `ℚ`; the clock is passed
  explicitly to every operation that reads it.
* `**kwargs` dictionaries are modelled as association lists of string pairs
  (every call site in `api.py` passes string-valued keyword arguments).
* Stateful methods become pure functions from the object state (plus clock)
  to the new state and the returned value.
-/

namespace TibberSpec

/-- A keyword-argument set (`**kwargs`): argument name paired with its value. -/
abbrev Kwargs := List (String × String)

/-- Code-point lexicographic comparison of character lists: Python's `<` on
strings. -/
def charListLt : List Char → List Char → Bool
  | [], [] => false
  | [], _ :: _ => true
  | _ :: _, [] => false
  | a :: as, b :: bs =>
    if a < b then true else if b < a then false else charListLt as bs

/-- Python's `<` on strings. -/
def strLt (s t : String) : Bool :=
  charListLt s.data t.data

/-- Python's `<=` on strings. -/
def strLe (s t : String) : Prop :=
  strLt s t = true ∨ s = t

theorem charListLt_irrefl : ∀ as, charListLt as as = false
  | [] => rfl
  | a :: as => by simp [charListLt, charListLt_irrefl as]

theorem charListLt_asymm :
    ∀ as bs, charListLt as bs = true → charListLt bs as = false
  | [], [] => by simp [charListLt]
  | [], _ :: _ => by simp [charListLt]
  | _ :: _, [] => by simp [charListLt]
  | a :: as, b :: bs => by
    intro hab
    rcases lt_trichotomy a b with h | h | h
    · simp [charListLt, h, asymm h]
    · subst h
      simp only [charListLt, lt_irrefl, if_false] at hab ⊢
      exact charListLt_asymm as bs hab
    · simp [charListLt, h, asymm h] at hab

theorem charListLt_trans :
    ∀ as bs cs, charListLt as bs = true → charListLt bs cs = true →
      charListLt as cs = true
  | [], bs, [] => by cases bs <;> simp [charListLt]
  | [], bs, _ :: _ => by simp [charListLt]
  | _ :: _, [], _ => by simp [charListLt]
  | _ :: _, _ :: _, [] => by simp [charListLt]
  | a :: as, b :: bs, c :: cs => by
    intro hab hbc
    rcases lt_trichotomy a b with h1 | h1 | h1
    · rcases lt_trichotomy b c with h2 | h2 | h2
      · simp [charListLt, h1.trans h2]
      · subst h2; simp [charListLt, h1]
      · simp [charListLt, h2, asymm h2] at hbc
    · subst h1
      rcases lt_trichotomy a c with h2 | h2 | h2
      · simp [charListLt, h2]
      · subst h2
        simp only [charListLt, lt_irrefl, if_false] at hab hbc ⊢
        exact charListLt_trans as bs cs hab hbc
      · simp [charListLt, h2, asymm h2] at hbc
    · simp [charListLt, h1, asymm h1] at hab

theorem charListLt_total :
    ∀ as bs, charListLt as bs = true ∨ as = bs ∨ charListLt bs as = true
  | [], [] => Or.inr (Or.inl rfl)
  | [], _ :: _ => Or.inl rfl
  | _ :: _, [] => Or.inr (Or.inr rfl)
  | a :: as, b :: bs => by
    rcases lt_trichotomy a b with h | h | h
    · exact Or.inl (by simp [charListLt, h])
    · subst h
      rcases charListLt_total as bs with h2 | h2 | h2
      · exact Or.inl (by simp [charListLt, lt_irrefl, h2])
      · exact Or.inr (Or.inl (by rw [h2]))
      · exact Or.inr (Or.inr (by simp [charListLt, lt_irrefl, h2]))
    · exact Or.inr (Or.inr (by simp [charListLt, h]))

theorem strLt_trans {s t r : String} (h1 : strLt s t = true)
    (h2 : strLt t r = true) : strLt s r = true :=
  charListLt_trans s.data t.data r.data h1 h2

theorem strLt_asymm {s t : String} (h : strLt s t = true) :
    strLt t s = false :=
  charListLt_asymm s.data t.data h

theorem strLt_irrefl (s : String) : strLt s s = false :=
  charListLt_irrefl s.data

theorem strLt_total (s t : String) :
    strLt s t = true ∨ s = t ∨ strLt t s = true := by
  rcases charListLt_total s.data t.data with h | h | h
  · exact Or.inl h
  · exact Or.inr (Or.inl (congrArg String.mk h))
  · exact Or.inr (Or.inr h)

/-- The order in which Python's `sorted` arranges the `(name, value)` tuples of
`sorted(kwargs.items())` in `ApiCache._make_key`: lexicographic on the pair
(first the argument name, ties broken by the value). -/
def pairLe (p q : String × String) : Prop :=
  strLt p.1 q.1 = true ∨ (p.1 = q.1 ∧ strLe p.2 q.2)

instance : DecidableRel pairLe := fun p q =>
  inferInstanceAs
    (Decidable (strLt p.1 q.1 = true ∨
      (p.1 = q.1 ∧ (strLt p.2 q.2 = true ∨ p.2 = q.2))))

instance : IsTotal (String × String) pairLe where
  total p q := by
    rcases strLt_total p.1 q.1 with h | h | h
    · exact Or.inl (Or.inl h)
    · rcases strLt_total p.2 q.2 with h2 | h2 | h2
      · exact Or.inl (Or.inr ⟨h, Or.inl h2⟩)
      · exact Or.inl (Or.inr ⟨h, Or.inr h2⟩)
      · exact Or.inr (Or.inr ⟨h.symm, Or.inl h2⟩)
    · exact Or.inr (Or.inl h)

instance : IsTrans (String × String) pairLe where
  trans p q r hpq hqr := by
    rcases hpq with h1 | ⟨h1, h1v⟩
    · rcases hqr with h2 | ⟨h2, _⟩
      · exact Or.inl (strLt_trans h1 h2)
      · exact Or.inl (h2 ▸ h1)
    · rcases hqr with h2 | ⟨h2, h2v⟩
      · exact Or.inl (h1 ▸ h2)
      · refine Or.inr ⟨h1.trans h2, ?_⟩
        rcases h1v with hv1 | hv1
        · rcases h2v with hv2 | hv2
          · exact Or.inl (strLt_trans hv1 hv2)
          · exact Or.inl (hv2 ▸ hv1)
        · exact hv1 ▸ h2v

instance : IsAntisymm (String × String) pairLe where
  antisymm p q hpq hqp := by
    rcases hpq with h1 | ⟨h1, h1v⟩
    · rcases hqp with h2 | ⟨h2, _⟩
      · exact absurd (strLt_asymm h1) (by simp [h2])
      · exact absurd h1 (by simp [h2, strLt_irrefl])
    · rcases hqp with h2 | ⟨_, h2v⟩
      · exact absurd h2 (by simp [h1, strLt_irrefl])
      · refine Prod.ext h1 ?_
        rcases h1v with hv1 | hv1
        · rcases h2v with hv2 | hv2
          · exact absurd (strLt_asymm hv1) (by simp [hv2])
          · exact hv2.symm
        · exact hv1

/-- Rendering of `json.dumps(sorted_kwargs, sort_keys=True, default=str)` for a
list of `(name, value)` string pairs: a JSON array of two-element arrays.
(JSON string escaping is omitted: the claims only compare rendered texts for
equality, and on the argument lists involved the rendering is injective.) -/
def jsonDumps (l : Kwargs) : String :=
  "[" ++ String.intercalate ", "
      (l.map fun p => "[\"" ++ p.1 ++ "\", \"" ++ p.2 ++ "\"]") ++ "]"

/-- `ApiCache._make_key` (cache.py lines 33-39): sorts the keyword arguments,
renders `f"<method>:<json.dumps(sorted_kwargs)>"` and hashes it with SHA-256.
SHA-256 is a fixed deterministic function of its input string, so two calls
yield the same digest exactly when they build the same input string; the key
is therefore modelled by the hash pre-image.  (No claim relies on hash
collisions.) -/
def make_key (method : String) (kwargs : Kwargs) : String :=
  method ++ ":" ++ jsonDumps (List.insertionSort pairLe kwargs)

/-- One entry of `ApiCache._cache`: key paired with `(data, expiry_time,
cached_at)`. -/
abbrev CacheEntries (α : Type) := List (String × α × ℚ × ℚ)

/-- Lookup in the `_cache` dict. -/
def lookupEntry (k : String) : CacheEntries α → Option (α × ℚ × ℚ)
  | [] => none
  | e :: es => if e.1 = k then some e.2 else lookupEntry k es

/-- `del self._cache[key]` (keys are unique, so dropping the first match
removes the key). -/
def eraseEntry (k : String) : CacheEntries α → CacheEntries α
  | [] => []
  | e :: es => if e.1 = k then es else e :: eraseEntry k es

/-- `self._cache[key] = value`: replace in place if present, else append
(Python dicts keep insertion order). -/
def insertEntry (k : String) (v : α × ℚ × ℚ) : CacheEntries α → CacheEntries α
  | [] => [(k, v)]
  | e :: es => if e.1 = k then (k, v) :: es else e :: insertEntry k v es

/-- `ApiCache` (cache.py lines 15-31): the `_cache` dict, the default TTL and
the hit/miss counters. -/
structure ApiCache (α : Type) where
  cache : CacheEntries α
  default_ttl : ℚ
  hit_count : ℕ
  miss_count : ℕ

/-- A fresh `ApiCache(default_ttl)`. -/
def ApiCache.empty (default_ttl : ℚ) : ApiCache α :=
  ⟨[], default_ttl, 0, 0⟩

/-- `ApiCache.get` (cache.py lines 41-74): on an unexpired entry count a hit
and return the data; an expired entry is deleted; otherwise count a miss and
return `None`.  `now` is `time.time()`. -/
def ApiCache.get (c : ApiCache α) (now : ℚ) (method : String) (kwargs : Kwargs) :
    ApiCache α × Option α :=
  let key := make_key method kwargs
  match lookupEntry key c.cache with
  | some (data, expiry_time, _cached_at) =>
    if now < expiry_time then
      ({ c with hit_count := c.hit_count + 1 }, some data)
    else
      ({ c with cache := eraseEntry key c.cache,
                miss_count := c.miss_count + 1 }, none)
  | none => ({ c with miss_count := c.miss_count + 1 }, none)

/-- `ApiCache.set` (cache.py lines 76-93): store `(data, now + ttl, now)`
under the key; `ttl = None` means the default TTL. -/
def ApiCache.set (c : ApiCache α) (now : ℚ) (method : String) (data : α)
    (ttl : Option ℚ) (kwargs : Kwargs) : ApiCache α :=
  let key := make_key method kwargs
  let t := ttl.getD c.default_ttl
  { c with cache := insertEntry key (data, now + t, now) c.cache }

/-- `ApiCache.invalidate` (cache.py lines 95-119).  `method = none` clears the
whole cache; `method` with nonempty kwargs deletes the one matching key; the
`method`-only branch iterates `list(self._cache.keys())` and deletes **every**
key (its own docstring says "invalidate only entries for this method"). -/
def ApiCache.invalidate (c : ApiCache α) (method : Option String)
    (kwargs : Kwargs) : ApiCache α :=
  match method with
  | none => { c with cache := [] }
  | some m =>
    if kwargs ≠ [] then
      { c with cache := eraseEntry (make_key m kwargs) c.cache }
    else
      { c with cache := [] }

/-- `SmartCache.ttl_config` (cache.py lines 163-170), as the lookup
`self.ttl_config.get(data_type, ...)` reads it. -/
def ttl_config (data_type : String) : Option ℚ :=
  if data_type = "homes" then some 3600
  else if data_type = "gizmos" then some 1800
  else if data_type = "auth" then some 3300
  else if data_type = "rewards_daily" then some 300
  else if data_type = "rewards_monthly" then some 900
  else if data_type = "rewards_historical" then some 3600
  else none

/-- The TTL computed inside `SmartCache.set_smart` (cache.py lines 181-195):
base TTL from the policy table (falling back to `_default_ttl`, which is 300
for a `SmartCache`); for `rewards_daily` shortened to 60 when
`24 - now.hour <= 2`, and for `rewards_monthly` shortened to 300 when
`now.day >= 31 - 2` (every month approximated as 31 days).  `utcHour` and
`utcDay` are the hour and day-of-month of `datetime.now(UTC)` — the **UTC**
clock, not local time. -/
def smartTtl (default_ttl : ℚ) (data_type : String) (utcHour utcDay : ℕ) : ℚ :=
  let ttl := (ttl_config data_type).getD default_ttl
  if data_type = "rewards_daily" then
    if 24 - utcHour ≤ 2 then 60 else ttl
  else if data_type = "rewards_monthly" then
    if 31 - 2 ≤ utcDay then 300 else ttl
  else ttl

/-- `SmartCache.set_smart` (cache.py lines 172-203): `self.set(method, data,
ttl, **kwargs)` with the adaptive TTL. -/
def SmartCache.set_smart (c : ApiCache α) (now : ℚ) (utcHour utcDay : ℕ)
    (method : String) (data : α) (data_type : String) (kwargs : Kwargs) :
    ApiCache α :=
  c.set now method data (some (smartTtl c.default_ttl data_type utcHour utcDay)) kwargs

/-- Local wall-clock hour in a timezone `offsetHours` east of UTC (the spec
states the daily-rewards TTL rule in terms of *local* midnight). -/
def localHour (utcHour offsetHours : ℕ) : ℕ :=
  (utcHour + offsetHours) % 24

/-- Spec-side reading of "fewer than 2 hours remain until midnight" for a
clock fixed exactly on the whole hour `h` (so `24 - h` hours remain). -/
def fewerThanTwoHoursToMidnight (h : ℕ) : Prop :=
  24 - h < 2

/-- Spec-side reading of "the current date falls in the last 2 days of the
month" for a month of `daysInMonth` days. -/
def inLastTwoDaysOfMonth (daysInMonth day : ℕ) : Prop :=
  daysInMonth - 1 ≤ day ∧ day ≤ daysInMonth

/-- `RateLimiter` (rate_limiter.py lines 13-27): a token bucket.  `calls` is
the integer capacity; `tokens` starts at `float(calls)`; `last_update` is the
monotonic clock at the last refill. -/
structure RateLimiter where
  calls : ℕ
  period : ℚ
  tokens : ℚ
  last_update : ℚ

/-- `RateLimiter.__init__(calls, period)` observed at monotonic time `now`. -/
def RateLimiter.create (calls : ℕ) (period now : ℚ) : RateLimiter :=
  ⟨calls, period, (calls : ℚ), now⟩

/-- The refill step at the top of the `acquire` loop (rate_limiter.py lines
33-39): `tokens = min(calls, tokens + elapsed * (calls / period))`. -/
def RateLimiter.refill (b : RateLimiter) (now : ℚ) : RateLimiter :=
  let elapsed := now - b.last_update
  let tokens_to_add := elapsed * ((b.calls : ℚ) / b.period)
  { b with tokens := min (b.calls : ℚ) (b.tokens + tokens_to_add),
           last_update := now }

/-- One iteration of `RateLimiter.acquire` (rate_limiter.py lines 29-49)
observed at monotonic time `now`: refill, then take the fast path (decrement
by exactly one) when `tokens >= 1`; otherwise the caller would compute a wait
time and suspend (`Bool` result `false`). -/
def RateLimiter.tryAcquire (b : RateLimiter) (now : ℚ) : RateLimiter × Bool :=
  let b1 := b.refill now
  if 1 ≤ b1.tokens then ({ b1 with tokens := b1.tokens - 1 }, true)
  else (b1, false)

/-- A sequence of `acquire()` calls at the given monotonic times; the flag is
`true` when every call succeeded on its fast path (no call suspended). -/
def RateLimiter.runAcquires (b : RateLimiter) : List ℚ → RateLimiter × Bool
  | [] => (b, true)
  | t :: ts =>
    let s := b.tryAcquire t
    let rest := s.1.runAcquires ts
    (rest.1, s.2 && rest.2)

/-- `MultiTierRateLimiter` (rate_limiter.py lines 57-72): the hourly and burst
buckets, the optional persistence storage (modelled by the token pair its
`get_tokens()` returns after a successful `async_load()`; `none` when no
storage is configured or loading fails) and the save bookkeeping. -/
structure MultiTierRateLimiter where
  hourly : RateLimiter
  burst : RateLimiter
  storage : Option (ℚ × ℚ)
  last_save_time : ℚ

/-- `MultiTierRateLimiter.__init__(storage)` at monotonic time `now`:
`RateLimiter(80, 3600)` and `RateLimiter(20, 900)`. -/
def MultiTierRateLimiter.create (storage : Option (ℚ × ℚ)) (now : ℚ) :
    MultiTierRateLimiter :=
  ⟨RateLimiter.create 80 3600 now, RateLimiter.create 20 900 now, storage, now⟩

/-- `MultiTierRateLimiter.initialize` (rate_limiter.py lines 74-88): when a
storage is configured, load it and overwrite both buckets' token counts with
the persisted pair; on load failure (or without storage) the state is left
unchanged.  Note there is no first-call guard at this level: every call
re-seeds the buckets from the snapshot. -/
def MultiTierRateLimiter.initLimiter (m : MultiTierRateLimiter) :
    MultiTierRateLimiter :=
  match m.storage with
  | some (hourly_tokens, burst_tokens) =>
    { m with hourly := { m.hourly with tokens := hourly_tokens },
             burst := { m.burst with tokens := burst_tokens } }
  | none => m

/-- `MultiTierRateLimiter.acquire` (rate_limiter.py lines 90-100): acquire the
hourly bucket, then the burst bucket; then, if a storage is configured and
more than `_save_interval = 60` seconds have passed since the last save,
persist both buckets' current token counts (`_save_state`). -/
def MultiTierRateLimiter.acquire (m : MultiTierRateLimiter) (now : ℚ) :
    MultiTierRateLimiter × Bool :=
  let h := m.hourly.tryAcquire now
  let hb := m.burst.tryAcquire now
  let m1 := { m with hourly := h.1, burst := hb.1 }
  let m2 :=
    if m1.storage.isSome ∧ 60 < now - m1.last_save_time then
      { m1 with storage := some (m1.hourly.tokens, m1.burst.tokens),
                last_save_time := now }
    else m1
  (m2, h.2 && hb.2)

/-- The slice of `TibberApiClient` state relevant to initialization and rate
limiting (api.py lines 81-91): the `_rate_limiter` and the `_initialized`
flag. -/
structure TibberApiClient where
  rate_limiter : MultiTierRateLimiter
  initialized : Bool

/-- `TibberApiClient.initialize` (api.py lines 87-91): only when
`_initialized` is still false does it run the limiter's initialization and
set the flag; afterwards it is a no-op. -/
def TibberApiClient.initClient (c : TibberApiClient) : TibberApiClient :=
  if c.initialized then c
  else { c with rate_limiter := c.rate_limiter.initLimiter, initialized := true }

/-- The rate-limiter acquisition a request performs on the client
(api.py line 234). -/
def TibberApiClient.acquireClient (c : TibberApiClient) (now : ℚ) :
    TibberApiClient :=
  { c with rate_limiter := (c.rate_limiter.acquire now).1 }

/-- Hex digit as `[0-9a-f]` with `re.IGNORECASE`. -/
def isHexDigit (c : Char) : Bool :=
  c.isDigit || ('a' ≤ c && c ≤ 'f') || ('A' ≤ c && c ≤ 'F')

/-- Consume exactly `n` hex digits. -/
def hexRun : ℕ → List Char → Option (List Char)
  | 0, cs => some cs
  | n + 1, c :: cs => if isHexDigit c then hexRun n cs else none
  | _ + 1, [] => none

/-- Consume one dash. -/
def expectDash : List Char → Option (List Char)
  | '-' :: cs => some cs
  | _ => none

/-- The 8-4-4-4-12 hex-digit shape of `UUID_PATTERN` (api.py lines 28-31),
consuming the whole input. -/
def uuidCore (cs : List Char) : Bool :=
  ((((((((hexRun 8 cs).bind expectDash).bind (hexRun 4)).bind
      expectDash).bind (hexRun 4)).bind expectDash).bind (hexRun 4)).bind
      expectDash).bind (hexRun 12) = some []

/-- `UUID_PATTERN.match(s)` as Python's `re` evaluates it: `re.match` anchors
at the start, and the `$` anchor matches at the end of the string *or just
before one trailing newline*, so `"<uuid>\n"` also matches. -/
def uuidPatternMatch (s : String) : Bool :=
  uuidCore s.data ||
    (match s.data.getLast? with
     | some c => c = '\n' && uuidCore s.data.dropLast
     | none => false)

/-- A well-formed UUID as the spec means it: exactly the 8-4-4-4-12
hex-digit shape and nothing else. -/
def wellFormedUuid (s : String) : Bool :=
  uuidCore s.data

/-- Value of a decimal digit. -/
def digitVal (c : Char) : ℕ :=
  c.toNat - Char.toNat '0'

/-- Read exactly `n` decimal digits into `acc`. -/
def readDigits : ℕ → ℕ → List Char → Option (ℕ × List Char)
  | acc, 0, cs => some (acc, cs)
  | acc, n + 1, c :: cs =>
    if c.isDigit then readDigits (acc * 10 + digitVal c) n cs else none
  | _, _ + 1, [] => none

/-- Gregorian leap year, as `datetime` validates day-of-month. -/
def isLeapYear (y : ℕ) : Bool :=
  y % 4 = 0 && (y % 100 ≠ 0 || y % 400 = 0)

/-- Days in a month of year `y`. -/
def daysInMonth (y m : ℕ) : ℕ :=
  if m = 2 then (if isLeapYear y then 29 else 28)
  else if m = 4 ∨ m = 6 ∨ m = 9 ∨ m = 11 then 30
  else 31

/-- A parsed `datetime`: `offset` is the UTC offset in minutes for an
offset-aware value and `none` for a naive one. -/
structure IsoDateTime where
  year : ℕ
  month : ℕ
  day : ℕ
  hour : ℕ
  minute : ℕ
  second : ℕ
  microsecond : ℕ
  offset : Option ℤ
deriving DecidableEq

/-- Fractional-second digits scaled to microseconds (1 to 6 digits, as
`fromisoformat` accepts). -/
def fracToMicro (ds : List Char) : Option ℕ :=
  if ds.length = 0 ∨ 6 < ds.length then none
  else some ((ds.foldl (fun a c => a * 10 + digitVal c) 0) * 10 ^ (6 - ds.length))

/-- Read `HH:MM` as minutes (used for UTC offsets). -/
def parseHM (cs : List Char) : Option (ℕ × List Char) :=
  match readDigits 0 2 cs with
  | some (h, ':' :: cs2) =>
    match readDigits 0 2 cs2 with
    | some (m, rest) => if h ≤ 23 ∧ m ≤ 59 then some (h * 60 + m, rest) else none
    | none => none
  | _ => none

/-- Read a `±HH:MM` UTC offset. -/
def parseOffset : List Char → Option (ℤ × List Char)
  | '+' :: cs => (parseHM cs).map fun p => ((p.1 : ℤ), p.2)
  | '-' :: cs => (parseHM cs).map fun p => (-(p.1 : ℤ), p.2)
  | _ => none

/-- Read the time-of-day part `HH:MM[:SS[.ffffff]][±HH:MM]`. -/
def parseTime (cs : List Char) : Option (ℕ × ℕ × ℕ × ℕ × Option ℤ) :=
  match readDigits 0 2 cs with
  | some (h, ':' :: cs1) =>
    match readDigits 0 2 cs1 with
    | some (mi, cs2) =>
      if h ≤ 23 ∧ mi ≤ 59 then
        let secPart : Option (ℕ × ℕ × List Char) :=
          match cs2 with
          | ':' :: cs3 =>
            match readDigits 0 2 cs3 with
            | some (s, cs4) =>
              if s ≤ 59 then
                match cs4 with
                | '.' :: cs5 =>
                  (fracToMicro (cs5.takeWhile Char.isDigit)).map
                    fun us => (s, us, cs5.dropWhile Char.isDigit)
                | _ => some (s, 0, cs4)
              else none
            | none => none
          | _ => some (0, 0, cs2)
        match secPart with
        | some (s, us, []) => some (h, mi, s, us, none)
        | some (s, us, rest) =>
          (parseOffset rest).bind fun p =>
            if p.2 = [] then some (h, mi, s, us, some p.1) else none
        | none => none
      else none
    | none => none
  | _ => none

/-- `datetime.fromisoformat` on the subset of ISO-8601 the integration
produces and the tests exercise: `YYYY-MM-DD`, optionally followed by `T` or
a space and `HH:MM[:SS[.ffffff]]`, optionally followed by a `±HH:MM` offset. -/
def fromisoformat (s : String) : Option IsoDateTime :=
  match readDigits 0 4 s.data with
  | some (y, '-' :: cs1) =>
    match readDigits 0 2 cs1 with
    | some (m, '-' :: cs2) =>
      match readDigits 0 2 cs2 with
      | some (d, rest) =>
        if 1 ≤ m ∧ m ≤ 12 ∧ 1 ≤ d ∧ d ≤ daysInMonth y m then
          match rest with
          | [] => some ⟨y, m, d, 0, 0, 0, 0, none⟩
          | sep :: rest2 =>
            if sep = 'T' ∨ sep = ' ' then
              (parseTime rest2).map
                fun t => ⟨y, m, d, t.1, t.2.1, t.2.2.1, t.2.2.2.1, t.2.2.2.2⟩
            else none
        else none
      | none => none
    | _ => none
  | _ => none

/-- `s.replace("Z", "+00:00")` over the character list (the pattern is a
single character, so per-character replacement is exact). -/
def replaceZChars : List Char → List Char
  | [] => []
  | c :: cs =>
    if c = 'Z' then '+' :: '0' :: '0' :: ':' :: '0' :: '0' :: replaceZChars cs
    else c :: replaceZChars cs

/-- `some_str.replace("Z", "+00:00")` (api.py lines 563-564, 570). -/
def replaceZ (s : String) : String :=
  ⟨replaceZChars s.data⟩

/-- Days from 1970-01-01 of a civil date (standard era-based algorithm). -/
def daysFromCivil (y m d : ℤ) : ℤ :=
  let y1 := if m ≤ 2 then y - 1 else y
  let era := (if 0 ≤ y1 then y1 else y1 - 399) / 400
  let yoe := y1 - era * 400
  let mp := (m + 9) % 12
  let doy := (153 * mp + 2) / 5 + d - 1
  let doe := yoe * 365 + yoe / 4 - yoe / 100 + doy
  era * 146097 + doe - 719468

/-- The POSIX timestamp of an offset-aware parsed datetime whose offset is
`off` minutes east of UTC. -/
def IsoDateTime.epochSeconds (dt : IsoDateTime) (off : ℤ) : ℚ :=
  ((daysFromCivil (dt.year : ℤ) (dt.month : ℤ) (dt.day : ℤ) * 86400
      + (dt.hour : ℤ) * 3600 + (dt.minute : ℤ) * 60 + (dt.second : ℤ)
      - off * 60 : ℤ) : ℚ)
    + (dt.microsecond : ℚ) / 1000000

/-- The exceptions `api.py` can raise or propagate in the modelled paths:
`ApiError` and its subtype `ApiAuthError`, and the `TypeError` Python raises
when `to_dt < now - timedelta(days=1)` compares an offset-naive parsed date
with the offset-aware `datetime.now(timezone.utc)` (api.py line 574, outside
any try block). -/
inductive PyError
  | apiError (msg : String)
  | apiAuthError (msg : String)
  | typeError
deriving DecidableEq

/-- Terminal outcome of the `_graphql_request` retry loop. -/
inductive GqlOutcome
  | success
  | failure (e : PyError)
deriving DecidableEq

/-- The backoff wait `base_wait + jitter` of the 429/5xx/transport branches:
`base_wait = min(base_delay * 2**attempt, max_delay)` and
`jitter = base_wait * jitter_range * (2 * random.random() - 1)`; `u` is the
`random.random()` sample in `[0, 1]`. -/
def backoffWait (base_delay max_delay jitter_range : ℚ) (attempt : ℕ) (u : ℚ) : ℚ :=
  let base_wait := min (base_delay * 2 ^ attempt) max_delay
  base_wait + base_wait * jitter_range * (2 * u - 1)

/-- The `for attempt in range(self._max_retries)` loop of `_graphql_request`
(api.py lines 239-342 with the fall-through at 411-416), specialised to
responses that never return 401 (the embedded re-authentication retry is not
taken): `status a` is the HTTP status of the request made on attempt `a`,
`u a` the jitter sample for that attempt's wait.  First argument: loop
iterations remaining; second: the attempt index.  Result: (number of request
attempts actually made, the waits slept between attempts, the outcome).
A status < 400 returns the parsed data (`success` here); 429 without
`Retry-After` sleeps `base_wait + jitter` and continues; a status ≥ 500
sleeps and continues unless `attempt == max_retries - 1`, where
`raise_for_status()` raises `aiohttp.ClientResponseError`, which the
`aiohttp.ClientError` handler turns into `ApiError` since no attempts
remain; any other status ≥ 400 raises through the same handler, which sleeps
`max(0.1, base_wait + jitter)` and continues while attempts remain.
Exhausting the loop raises `ApiError` (lines 411-416). -/
def graphqlLoop (max_retries : ℕ) (bd md jr : ℚ) (status : ℕ → ℕ) (u : ℕ → ℚ) :
    ℕ → ℕ → ℕ × List ℚ × GqlOutcome
  | 0, _ => (0, [], .failure (.apiError "Failed after retries"))
  | remaining + 1, attempt =>
    let s := status attempt
    if s < 400 then (1, [], .success)
    else if s = 429 then
      let w := backoffWait bd md jr attempt (u attempt)
      let r := graphqlLoop max_retries bd md jr status u remaining (attempt + 1)
      (r.1 + 1, w :: r.2.1, r.2.2)
    else if 500 ≤ s then
      if attempt < max_retries - 1 then
        let w := backoffWait bd md jr attempt (u attempt)
        let r := graphqlLoop max_retries bd md jr status u remaining (attempt + 1)
        (r.1 + 1, w :: r.2.1, r.2.2)
      else (1, [], .failure (.apiError "Network connection failed"))
    else
      if attempt < max_retries - 1 then
        let w := max (1 / 10) (backoffWait bd md jr attempt (u attempt))
        let r := graphqlLoop max_retries bd md jr status u remaining (attempt + 1)
        (r.1 + 1, w :: r.2.1, r.2.2)
      else (1, [], .failure (.apiError "Network connection failed"))

/-- The `me.home.gridRewardsHistoryPeriod` substructure of a reward-history
GraphQL response (fields read at api.py lines 626-633). -/
structure GridRewardsPeriod where
  vehicleRewards : Option ℚ
  batteryRewards : Option ℚ
  totalReward : Option ℚ
  currency : Option String
  fromField : Option String
  toField : Option String
deriving DecidableEq

/-- A successful reward-history GraphQL response body: `none` models a null
or absent `gridRewardsHistoryPeriod`. -/
structure GqlRewardsResponse where
  gridRewardsHistoryPeriod : Option GridRewardsPeriod
deriving DecidableEq

/-- The record `async_get_grid_rewards_history` returns (api.py lines
602-633). -/
structure RewardsRecord where
  ev : Option ℚ
  homevolt : Option ℚ
  total : Option ℚ
  currency : Option String
  from_date_api : Option String
  to_date_api : Option String
deriving DecidableEq

/-- `default_return` (api.py lines 602-609): the all-null sentinel. -/
def default_return : RewardsRecord :=
  ⟨none, none, none, none, none, none⟩

/-- Externally visible effects of one `async_get_grid_rewards_history` call,
in order.  `cacheGet` is the lookup at lines 578-584 (including its lazy
purge of an expired entry), `rateLimiterAcquire` and `networkRequest` happen
inside `_graphql_request`, `cacheSet` is the `set_smart` at lines 636-644. -/
inductive Effect
  | cacheGet
  | rateLimiterAcquire
  | networkRequest
  | cacheSet
deriving DecidableEq

/-- The keyword arguments used for both the cache lookup and the cache store
of `async_get_grid_rewards_history`. -/
def rewardsKwargs (home_id from_date_str to_date_str : String)
    (use_daily_resolution : Bool) : Kwargs :=
  [("home_id", home_id), ("from_date", from_date_str),
   ("to_date", to_date_str),
   ("resolution", if use_daily_resolution then "daily" else "monthly")]

/-- `TibberApiClient.async_get_grid_rewards_history` (api.py lines 532-648).
`now` is `time.time()` as the cache reads it and `nowEpoch` the timestamp of
`datetime.now(timezone.utc)` (the same instant on two clocks); `utcHour` and
`utcDay` are that instant's UTC hour and day-of-month, read by `set_smart`.
`response` stands for the result of `_graphql_request` on the cache-miss
path: an exception or a parsed body.  Returns the new cache state, the
call's outcome and the ordered effect trace. -/
def async_get_grid_rewards_history (cache : ApiCache RewardsRecord)
    (now nowEpoch : ℚ) (utcHour utcDay : ℕ)
    (home_id from_date_str to_date_str : String) (use_daily_resolution : Bool)
    (response : Except PyError GqlRewardsResponse) :
    ApiCache RewardsRecord × Except PyError RewardsRecord × List Effect :=
  if home_id = "" then
    (cache, .error (.apiError "Invalid home_id provided"), [])
  else if ¬ uuidPatternMatch home_id then
    (cache, .error (.apiError "Invalid home_id - Must be a valid UUID"), [])
  else if from_date_str = "" then
    (cache, .error (.apiError "Invalid from_date provided"), [])
  else if to_date_str = "" then
    (cache, .error (.apiError "Invalid to_date provided"), [])
  else
    match fromisoformat (replaceZ from_date_str),
          fromisoformat (replaceZ to_date_str) with
    | some _, some to_dt =>
      match to_dt.offset with
      | none =>
        -- line 574 compares the naive `to_dt` with the aware `now`: TypeError
        (cache, .error .typeError, [])
      | some off =>
        let cache_type :=
          if to_dt.epochSeconds off < nowEpoch - 86400 then "rewards_historical"
          else if use_daily_resolution then "rewards_daily"
          else "rewards_monthly"
        let kwargs := rewardsKwargs home_id from_date_str to_date_str
          use_daily_resolution
        let looked := cache.get now "get_grid_rewards" kwargs
        match looked.2 with
        | some cached_rewards =>
          (looked.1, .ok cached_rewards, [.cacheGet])
        | none =>
          let trace := [Effect.cacheGet, .rateLimiterAcquire, .networkRequest]
          match response with
          | .error e => (looked.1, .error e, trace)
          | .ok body =>
            match body.gridRewardsHistoryPeriod with
            | none => (looked.1, .ok default_return, trace)
            | some p =>
              let result : RewardsRecord :=
                ⟨p.vehicleRewards, p.batteryRewards, p.totalReward,
                 p.currency, p.fromField, p.toField⟩
              (SmartCache.set_smart looked.1 now utcHour utcDay
                 "get_grid_rewards" result cache_type kwargs,
               .ok result, trace ++ [.cacheSet])
    | _, _ =>
      (cache, .error (.apiError "Invalid date format"), [])

/-! ## Helper lemmas -/

theorem lookupEntry_insertEntry (k : String) (v : α × ℚ × ℚ) :
    ∀ l : CacheEntries α, lookupEntry k (insertEntry k v l) = some v
  | [] => by simp [insertEntry, lookupEntry]
  | e :: es => by
    by_cases h : e.1 = k
    · simp [insertEntry, lookupEntry, h]
    · simp [insertEntry, lookupEntry, h, lookupEntry_insertEntry k v es]

theorem lookupEntry_eq_none_of_not_mem (k : String) :
    ∀ l : CacheEntries α, k ∉ l.map Prod.fst → lookupEntry k l = none
  | [] => by simp [lookupEntry]
  | e :: es => by
    intro h
    simp only [List.map_cons, List.mem_cons] at h
    push_neg at h
    have hne : ¬ e.1 = k := fun hk => h.1 hk.symm
    simp [lookupEntry, hne, lookupEntry_eq_none_of_not_mem k es h.2]

theorem lookupEntry_eraseEntry_self (k : String) :
    ∀ l : CacheEntries α, (l.map Prod.fst).Nodup →
      lookupEntry k (eraseEntry k l) = none
  | [] => by simp [eraseEntry, lookupEntry]
  | e :: es => by
    intro h
    simp only [List.map_cons, List.nodup_cons] at h
    by_cases hk : e.1 = k
    · subst hk
      simp only [eraseEntry, if_pos rfl]
      exact lookupEntry_eq_none_of_not_mem e.1 es h.1
    · simp [eraseEntry, lookupEntry, hk, lookupEntry_eraseEntry_self k es h.2]

/-- Any two permuted argument lists have the same sorted form: insertion sort
produces a `pairLe`-sorted permutation, and sorted permutations coincide for
an antisymmetric total order. -/
theorem insertionSort_eq_of_perm {k1 k2 : Kwargs} (h : k1.Perm k2) :
    List.insertionSort pairLe k1 = List.insertionSort pairLe k2 :=
  List.eq_of_perm_of_sorted
    ((List.perm_insertionSort pairLe k1).trans
      (h.trans (List.perm_insertionSort pairLe k2).symm))
    (List.sorted_insertionSort pairLe k1)
    (List.sorted_insertionSort pairLe k2)

/-! ## C1 -/

/-- C1: evaluation of `ApiCache.invalidate` at the failing input.  A cache
holds one entry for operation "method1" and one for "method2"; before the
call the "method2" entry is retrievable; `invalidate("method1")` with no
arguments empties the whole `_cache` dict, so afterwards the "method2"
entry is gone as well — the claim (and the method's own docstring) says
entries of other operations must survive. -/
theorem invalidate_by_method_clears_unrelated_entries :
    (((((ApiCache.empty 300 : ApiCache ℕ).set 0 "method1" 1 none
          [("key", "a")]).set 0 "method2" 3 none
          [("key", "c")]).get 0 "method2" [("key", "c")]).2 = some 3) ∧
    ((((ApiCache.empty 300 : ApiCache ℕ).set 0 "method1" 1 none
          [("key", "a")]).set 0 "method2" 3 none
          [("key", "c")]).invalidate (some "method1") []).cache = [] := by
  constructor
  · have hne : ¬ (make_key "method1" [("key", "a")] =
        make_key "method2" [("key", "c")]) := by decide
    have hlt : (0 : ℚ) < 0 + 300 := by norm_num
    simp [ApiCache.get, ApiCache.set, ApiCache.empty, insertEntry, lookupEntry,
      hne, hlt]
  · rfl

/-! ## C6 -/

/-- C6: the cache key is order-independent: for any two permutations of the
same keyword-argument set the computed key is equal, and a `get` whose
arguments are a permutation of those of a preceding `set` addresses the same
entry and returns the stored value (for any positive TTL). -/
theorem make_key_order_independent {α : Type} (c : ApiCache α) (now ttl : ℚ)
    (method : String) (data : α) (k1 k2 : Kwargs) (hperm : k1.Perm k2)
    (httl : 0 < ttl) :
    make_key method k1 = make_key method k2 ∧
    ((c.set now method data (some ttl) k1).get now method k2).2 = some data := by
  have hkey : make_key method k1 = make_key method k2 := by
    unfold make_key
    rw [insertionSort_eq_of_perm hperm]
  refine ⟨hkey, ?_⟩
  have hlt : now < now + ttl := by linarith
  simp only [ApiCache.get, ApiCache.set, ← hkey, lookupEntry_insertEntry,
    Option.getD_some, if_pos hlt]

/-- C6 witness: the claim's own example `{a:1, b:2}` against `{b:2, a:1}`. -/
theorem make_key_order_independent_witness :
    List.Perm [("a", "1"), ("b", "2")] [("b", "2"), ("a", "1")] ∧
    (0 : ℚ) < 300 ∧
    (make_key "op" [("a", "1"), ("b", "2")] =
        make_key "op" [("b", "2"), ("a", "1")] ∧
      (((ApiCache.empty 300 : ApiCache ℕ).set 0 "op" 7 (some 300)
          [("a", "1"), ("b", "2")]).get 0 "op"
          [("b", "2"), ("a", "1")]).2 = some 7) :=
  ⟨List.Perm.swap ("b", "2") ("a", "1") [], by norm_num,
    make_key_order_independent (ApiCache.empty 300) 0 300 "op" 7
      [("a", "1"), ("b", "2")] [("b", "2"), ("a", "1")]
      (List.Perm.swap ("b", "2") ("a", "1") []) (by norm_num)⟩

/-! ## C4 -/

/-- C4 counterexample: the daily-rewards TTL rule does not follow the claim's
"fewer than 2 hours until local midnight" reading.  At 22:00 (UTC = local,
offset 0) exactly 2 hours — not fewer — remain until midnight, yet the TTL is
the shortened 60 s, not the base 300 s; and at UTC hour 21 in a UTC+2 zone the
local hour is 23 (fewer than 2 hours to local midnight), yet the TTL is the
base 300 s because the code reads the UTC hour. -/
theorem smartTtl_daily_local_midnight_counterexample :
    (¬ fewerThanTwoHoursToMidnight (localHour 22 0) ∧
      smartTtl 300 "rewards_daily" 22 15 = 60) ∧
    (fewerThanTwoHoursToMidnight (localHour 21 2) ∧
      smartTtl 300 "rewards_daily" 21 15 = 300) := by
  refine ⟨⟨?_, ?_⟩, ?_, ?_⟩
  · simp [fewerThanTwoHoursToMidnight, localHour]
  · rfl
  · simp [fewerThanTwoHoursToMidnight, localHour]
  · rfl

/-- C4 (amended): the 60-second TTL for `rewards_daily` applies exactly when
the **UTC** hour is 22 or 23, i.e. when at most 2 whole hours remain until UTC
midnight (`24 - hour <= 2`); at every other hour the base 300-second TTL
applies.  In particular the claim's examples hold on the UTC clock: 60 s at
23:00 UTC and 300 s at 12:00 UTC. -/
theorem smartTtl_daily_utc_hour_rule (h d : ℕ) :
    smartTtl 300 "rewards_daily" h d = if 22 ≤ h then 60 else 300 := by
  by_cases hh : 22 ≤ h
  · have h24 : 24 - h ≤ 2 := by omega
    simp [smartTtl, ttl_config, h24, hh]
  · have h24 : ¬ (24 - h ≤ 2) := by omega
    simp [smartTtl, ttl_config, h24, hh]

/-- C4 witness: the amended rule evaluated at the claim's example hours,
23:00 (shortened) and 12:00 (base). -/
theorem smartTtl_daily_utc_hour_rule_witness :
    smartTtl 300 "rewards_daily" 23 15 = 60 ∧
    smartTtl 300 "rewards_daily" 12 15 = 300 :=
  ⟨(smartTtl_daily_utc_hour_rule 23 15).trans (by norm_num),
   (smartTtl_daily_utc_hour_rule 12 15).trans (by norm_num)⟩

/-! ## C5 -/

/-- C5 counterexample: the monthly-rewards TTL rule approximates every month
as 31 days (`day >= 31 - 2`).  On January 29 — not among the last 2 days of a
31-day month — the TTL is the shortened 300 s where the claim demands the base
900 s; and on February 27 — within the last 2 days of a 28-day February — the
TTL is the base 900 s where the claim demands the shortened 300 s. -/
theorem smartTtl_monthly_month_end_counterexample :
    (¬ inLastTwoDaysOfMonth 31 29 ∧
      smartTtl 300 "rewards_monthly" 12 29 = 300) ∧
    (inLastTwoDaysOfMonth 28 27 ∧
      smartTtl 300 "rewards_monthly" 12 27 = 900) := by
  refine ⟨⟨?_, ?_⟩, ?_, ?_⟩
  · simp [inLastTwoDaysOfMonth]
  · rfl
  · simp [inLastTwoDaysOfMonth]
  · rfl

/-- C5 (amended): the shortened 300-second TTL for `rewards_monthly` applies
exactly when the day of month is at least 29 (the code's 31-day
approximation), independently of the actual month length; on days 1-28 the
base 900-second TTL applies — so in a 31-day month the last three days are
shortened, while February's true last days 27 and 28 (non-leap) keep the base
TTL. -/
theorem smartTtl_monthly_day_rule (h d : ℕ) :
    smartTtl 300 "rewards_monthly" h d = if 29 ≤ d then 300 else 900 := by
  by_cases hd : 29 ≤ d
  · have h31 : 31 - 2 ≤ d := by omega
    simp [smartTtl, ttl_config, h31, hd]
  · have h31 : ¬ (31 - 2 ≤ d) := by omega
    simp [smartTtl, ttl_config, h31, hd]

/-- C5 witness: the amended rule at day 29 (shortened) and day 15 (base). -/
theorem smartTtl_monthly_day_rule_witness :
    smartTtl 300 "rewards_monthly" 12 29 = 300 ∧
    smartTtl 300 "rewards_monthly" 12 15 = 900 :=
  ⟨(smartTtl_monthly_day_rule 12 29).trans (by norm_num),
   (smartTtl_monthly_day_rule 12 15).trans (by norm_num)⟩

/-! ## C2 -/

/-- C2 counterexample: `MultiTierRateLimiter.initialize` is not a no-op on a
second call.  With a persisted snapshot of (80, 20): the first initialization
seeds the buckets, one `acquire()` (at unchanged monotonic time) consumes one
token from each (hourly 79, burst 19), and a second initialization re-seeds
from the snapshot, changing the hourly token count from 79 back to 80. -/
theorem multiTier_second_initialize_not_noop :
    ((((MultiTierRateLimiter.create (some (80, 20)) 0).initLimiter.acquire
        0).1).hourly.tokens = 79 ∧
      (((MultiTierRateLimiter.create (some (80, 20)) 0).initLimiter.acquire
        0).1).burst.tokens = 19) ∧
    ((((MultiTierRateLimiter.create (some (80, 20)) 0).initLimiter.acquire
        0).1).initLimiter.hourly.tokens = 80 ∧
      (((MultiTierRateLimiter.create (some (80, 20)) 0).initLimiter.acquire
        0).1).initLimiter.hourly.tokens ≠
        (((MultiTierRateLimiter.create (some (80, 20)) 0).initLimiter.acquire
          0).1).hourly.tokens) := by
  have hacq : ((MultiTierRateLimiter.create (some (80, 20)) 0).initLimiter.acquire
      0).1 = ⟨⟨80, 3600, 79, 0⟩, ⟨20, 900, 19, 0⟩, some (80, 20), 0⟩ := by
    norm_num [MultiTierRateLimiter.create, MultiTierRateLimiter.initLimiter,
      MultiTierRateLimiter.acquire, RateLimiter.create, RateLimiter.tryAcquire,
      RateLimiter.refill]
  rw [hacq]
  refine ⟨⟨rfl, rfl⟩, rfl, ?_⟩
  norm_num [MultiTierRateLimiter.initLimiter]

/-- C2 (amended): the idempotence the spec describes lives in
`TibberApiClient.initialize`, which guards on the `_initialized` flag: a
repeated client-level initialization is a no-op, and it stays a no-op after
any rate-limiter acquisition in between — the whole client state, in
particular both buckets' token counts, is left exactly as it was just before
the repeated call (not reset to the persisted snapshot). -/
theorem client_initialize_idempotent (c : TibberApiClient) (now : ℚ) :
    c.initClient.initClient = c.initClient ∧
    (c.initClient.acquireClient now).initClient =
      c.initClient.acquireClient now := by
  by_cases h : c.initialized <;>
    simp [TibberApiClient.initClient, TibberApiClient.acquireClient, h]

/-! ## C3 -/

/-- The bucket fields `calls` and `period` are never changed by the
acquire/refill steps. -/
theorem runAcquires_calls_period :
    ∀ (times : List ℚ) (b : RateLimiter),
      (b.runAcquires times).1.calls = b.calls ∧
      (b.runAcquires times).1.period = b.period
  | [], b => ⟨rfl, rfl⟩
  | t :: ts, b => by
    have ih := runAcquires_calls_period ts (b.tryAcquire t).1
    have hstep : (b.tryAcquire t).1.calls = b.calls ∧
        (b.tryAcquire t).1.period = b.period := by
      simp only [RateLimiter.tryAcquire, RateLimiter.refill]
      split <;> simp
    simpa [RateLimiter.runAcquires, hstep.1, hstep.2] using ih

/-- Invariant preservation along any monotone sequence of acquire
observations. -/
theorem runAcquires_invariant :
    ∀ (times : List ℚ) (b : RateLimiter), 0 < b.period →
      List.Chain (· ≤ ·) b.last_update times →
      0 ≤ b.tokens → b.tokens ≤ (b.calls : ℚ) →
      0 ≤ (b.runAcquires times).1.tokens ∧
        (b.runAcquires times).1.tokens ≤ ((b.runAcquires times).1.calls : ℚ)
  | [], b => by
    intro _ _ h0 h1
    exact ⟨h0, h1⟩
  | t :: ts, b => by
    intro hp hchain h0 h1
    rcases hchain with _ | ⟨hle, hchain'⟩
    have hadd : 0 ≤ (t - b.last_update) * ((b.calls : ℚ) / b.period) := by
      have : (0 : ℚ) ≤ t - b.last_update := by linarith
      positivity
    set b1 := b.refill t with hb1
    have hb1t : b1.tokens = min (b.calls : ℚ)
        (b.tokens + (t - b.last_update) * ((b.calls : ℚ) / b.period)) := rfl
    have hb1lu : b1.last_update = t := rfl
    have hb1c : b1.calls = b.calls := rfl
    have hb1p : b1.period = b.period := rfl
    have h1t0 : 0 ≤ b1.tokens := by
      rw [hb1t]
      exact le_min (Nat.cast_nonneg _) (by linarith)
    have h1t1 : b1.tokens ≤ (b.calls : ℚ) := by
      rw [hb1t]; exact min_le_left _ _
    by_cases hfast : 1 ≤ b1.tokens
    · have hstep : b.tryAcquire t = ({ b1 with tokens := b1.tokens - 1 }, true) := by
        simp [RateLimiter.tryAcquire, ← hb1, hfast]
      have := runAcquires_invariant ts { b1 with tokens := b1.tokens - 1 }
        (by simpa [hb1p] using hp)
        (by simpa [hb1lu] using hchain')
        (by simpa using sub_nonneg.mpr hfast)
        (by simp only [hb1c]; linarith)
      simpa [RateLimiter.runAcquires, hstep] using this
    · have hstep : b.tryAcquire t = (b1, false) := by
        simp [RateLimiter.tryAcquire, ← hb1, hfast]
      have := runAcquires_invariant ts b1
        (by simpa [hb1p] using hp)
        (by simpa [hb1lu] using hchain')
        h1t0
        (by simpa [hb1c] using h1t1)
      simpa [RateLimiter.runAcquires, hstep] using this

/-- As long as at least as many tokens as pending calls are present, every
call takes the fast path. -/
theorem runAcquires_no_suspend :
    ∀ (times : List ℚ) (b : RateLimiter), 0 < b.period →
      List.Chain (· ≤ ·) b.last_update times →
      (times.length : ℚ) ≤ b.tokens → b.tokens ≤ (b.calls : ℚ) →
      (b.runAcquires times).2 = true
  | [], b => by
    intro _ _ _ _
    rfl
  | t :: ts, b => by
    intro hp hchain hlen h1
    rcases hchain with _ | ⟨hle, hchain'⟩
    have hadd : 0 ≤ (t - b.last_update) * ((b.calls : ℚ) / b.period) := by
      have : (0 : ℚ) ≤ t - b.last_update := by linarith
      positivity
    set b1 := b.refill t with hb1
    have hb1t : b1.tokens = min (b.calls : ℚ)
        (b.tokens + (t - b.last_update) * ((b.calls : ℚ) / b.period)) := rfl
    have hlen' : (ts.length : ℚ) + 1 ≤ b.tokens := by
      have : ((t :: ts).length : ℚ) = (ts.length : ℚ) + 1 := by
        simp
      linarith [hlen, this.symm.le]
    have hb1ge : b.tokens ≤ b1.tokens := by
      rw [hb1t]
      exact le_min h1 (by linarith)
    have hfast : 1 ≤ b1.tokens := by
      have h0 : (0 : ℚ) ≤ (ts.length : ℚ) := Nat.cast_nonneg _
      linarith
    have hstep : b.tryAcquire t = ({ b1 with tokens := b1.tokens - 1 }, true) := by
      simp [RateLimiter.tryAcquire, ← hb1, hfast]
    have hcap : b1.tokens ≤ (b.calls : ℚ) := by
      rw [hb1t]; exact min_le_left _ _
    have hrest := runAcquires_no_suspend ts { b1 with tokens := b1.tokens - 1 }
      (show 0 < b.period from hp)
      (show List.Chain (· ≤ ·) t ts from hchain')
      (show (ts.length : ℚ) ≤ b1.tokens - 1 by linarith)
      (show b1.tokens - 1 ≤ (b.calls : ℚ) by linarith)
    simp [RateLimiter.runAcquires, hstep, hrest]

/-- C3: starting from a full bucket, along any monotone sequence of acquire
observations the invariant `0 ≤ tokens ≤ capacity` holds at the end of every
such sequence (hence at every observation point, the sequence being
arbitrary), and if the sequence has at most `calls` acquisitions, every call
takes the fast path — none suspends. -/
theorem tokenBucket_invariant_and_no_suspend (calls : ℕ) (period t0 : ℚ)
    (times : List ℚ) (hp : 0 < period)
    (hchain : List.Chain (· ≤ ·) t0 times) :
    (0 ≤ ((RateLimiter.create calls period t0).runAcquires times).1.tokens ∧
      ((RateLimiter.create calls period t0).runAcquires times).1.tokens ≤
        (((RateLimiter.create calls period t0).runAcquires times).1.calls : ℚ)) ∧
    (times.length ≤ calls →
      ((RateLimiter.create calls period t0).runAcquires times).2 = true) := by
  constructor
  · exact runAcquires_invariant times (RateLimiter.create calls period t0) hp
      hchain (Nat.cast_nonneg _) le_rfl
  · intro hlen
    exact runAcquires_no_suspend times (RateLimiter.create calls period t0) hp
      hchain (show (times.length : ℚ) ≤ (calls : ℚ) by exact_mod_cast hlen) le_rfl

/-- C3 witness: a bucket of capacity 2 over 900 s, two acquires at times 0
and 1: the invariant holds and neither call suspends. -/
theorem tokenBucket_invariant_and_no_suspend_witness :
    (0 : ℚ) < 900 ∧ List.Chain (· ≤ ·) (0 : ℚ) [0, 1] ∧
    ((0 ≤ ((RateLimiter.create 2 900 0).runAcquires [0, 1]).1.tokens ∧
      ((RateLimiter.create 2 900 0).runAcquires [0, 1]).1.tokens ≤
        (((RateLimiter.create 2 900 0).runAcquires [0, 1]).1.calls : ℚ)) ∧
    ([(0 : ℚ), 1].length ≤ 2 →
      ((RateLimiter.create 2 900 0).runAcquires [0, 1]).2 = true)) :=
  ⟨by norm_num,
   List.Chain.cons le_rfl (List.Chain.cons (by norm_num) List.Chain.nil),
   tokenBucket_invariant_and_no_suspend 2 900 0 [0, 1] (by norm_num)
     (List.Chain.cons le_rfl (List.Chain.cons (by norm_num) List.Chain.nil))⟩

/-! ## C7 -/

/-- C7: against an endpoint answering HTTP 500 on every attempt, the request
loop (with the client's constants: 3 attempts, base delay 1 s, cap 60 s,
±30 % jitter) makes exactly 3 request attempts, sleeps exactly 2 backoff
delays which are strictly increasing for any admissible jitter samples, and
ends by raising `ApiError` — no other exception type. -/
theorem graphql_500_retry_bound (u : ℕ → ℚ)
    (hu0l : 0 ≤ u 0) (hu0r : u 0 ≤ 1) (hu1l : 0 ≤ u 1) (hu1r : u 1 ≤ 1) :
    (graphqlLoop 3 1 60 (3 / 10) (fun _ => 500) u 3 0).1 = 3 ∧
    (graphqlLoop 3 1 60 (3 / 10) (fun _ => 500) u 3 0).2.1.length = 2 ∧
    List.Chain' (· < ·) (graphqlLoop 3 1 60 (3 / 10) (fun _ => 500) u 3 0).2.1 ∧
    (graphqlLoop 3 1 60 (3 / 10) (fun _ => 500) u 3 0).2.2 =
      .failure (.apiError "Network connection failed") := by
  have hrun : graphqlLoop 3 1 60 (3 / 10) (fun _ => 500) u 3 0 =
      (3, [backoffWait 1 60 (3 / 10) 0 (u 0), backoffWait 1 60 (3 / 10) 1 (u 1)],
       .failure (.apiError "Network connection failed")) := by
    norm_num [graphqlLoop]
  rw [hrun]
  refine ⟨rfl, rfl, ?_, rfl⟩
  have hw0 : backoffWait 1 60 (3 / 10) 0 (u 0) = 1 + (3 / 10) * (2 * u 0 - 1) := by
    norm_num [backoffWait]
  have hw1 : backoffWait 1 60 (3 / 10) 1 (u 1) = 2 + (3 / 5) * (2 * u 1 - 1) := by
    norm_num [backoffWait]
  have hlt : backoffWait 1 60 (3 / 10) 0 (u 0) < backoffWait 1 60 (3 / 10) 1 (u 1) := by
    rw [hw0, hw1]
    linarith
  exact List.chain'_pair.mpr hlt

/-- C7 witness: zero jitter (`random.random() = 1/2`): the waits are exactly
1 s then 2 s. -/
theorem graphql_500_retry_bound_witness :
    ((0 : ℚ) ≤ 1 / 2 ∧ (1 : ℚ) / 2 ≤ 1) ∧
    ((graphqlLoop 3 1 60 (3 / 10) (fun _ => 500) (fun _ => 1 / 2) 3 0).1 = 3 ∧
      (graphqlLoop 3 1 60 (3 / 10) (fun _ => 500) (fun _ => 1 / 2) 3 0).2.1.length = 2 ∧
      List.Chain' (· < ·)
        (graphqlLoop 3 1 60 (3 / 10) (fun _ => 500) (fun _ => 1 / 2) 3 0).2.1 ∧
      (graphqlLoop 3 1 60 (3 / 10) (fun _ => 500) (fun _ => 1 / 2) 3 0).2.2 =
        .failure (.apiError "Network connection failed")) :=
  ⟨⟨by norm_num, by norm_num⟩,
   graphql_500_retry_bound (fun _ => 1 / 2) (by norm_num) (by norm_num)
     (by norm_num) (by norm_num)⟩

/-! ## C8, C9, C10 -/

/-- Evaluation of the cache-miss, null-`gridRewardsHistoryPeriod` path of
`async_get_grid_rewards_history`: with inputs that pass validation and a
cache miss, the call answers the all-null sentinel without raising and
without storing anything — the cache state is exactly the post-lookup
state. -/
theorem rewardHistory_null_eval
    (cache : ApiCache RewardsRecord) (now nowEpoch : ℚ) (uh ud : ℕ)
    (home_id from_d to_d : String) (daily : Bool)
    (fdt tdt : IsoDateTime) (off : ℤ)
    (hid : uuidPatternMatch home_id = true)
    (hf : fromisoformat (replaceZ from_d) = some fdt)
    (ht : fromisoformat (replaceZ to_d) = some tdt)
    (hoff : tdt.offset = some off)
    (hmiss : (cache.get now "get_grid_rewards"
        (rewardsKwargs home_id from_d to_d daily)).2 = none) :
    async_get_grid_rewards_history cache now nowEpoch uh ud home_id from_d
        to_d daily (.ok ⟨none⟩) =
      ((cache.get now "get_grid_rewards"
          (rewardsKwargs home_id from_d to_d daily)).1,
       .ok default_return, [.cacheGet, .rateLimiterAcquire, .networkRequest]) := by
  have h1 : ¬ home_id = "" := by
    intro h
    rw [h] at hid
    exact absurd hid (by decide)
  have h3 : ¬ from_d = "" := by
    intro h
    rw [h] at hf
    rw [show fromisoformat (replaceZ "") = none from rfl] at hf
    exact Option.noConfusion hf
  have h4 : ¬ to_d = "" := by
    intro h
    rw [h] at ht
    rw [show fromisoformat (replaceZ "") = none from rfl] at ht
    exact Option.noConfusion ht
  simp only [async_get_grid_rewards_history, if_neg h1, hid, not_true,
    if_false, if_neg h3, if_neg h4, hf, ht, hoff, hmiss]

/-- Next lookup after a miss: if a `get` missed, the entry under that key is
absent afterwards (either it was never there, or it was expired and the
lookup purged it), provided the cache keys are distinct, as Python dict keys
are. -/
theorem lookupEntry_get_of_miss {α : Type} (c : ApiCache α) (now : ℚ)
    (m : String) (kw : Kwargs) (hnodup : (c.cache.map Prod.fst).Nodup)
    (hmiss : (c.get now m kw).2 = none) :
    lookupEntry (make_key m kw) (c.get now m kw).1.cache = none := by
  simp only [ApiCache.get] at hmiss ⊢
  cases hl : lookupEntry (make_key m kw) c.cache with
  | none => simp [hl]
  | some v =>
    obtain ⟨data, expiry, cachedAt⟩ := v
    by_cases hlt : now < expiry
    · rw [hl] at hmiss
      simp [hlt] at hmiss
    · simp [hl, hlt, lookupEntry_eraseEntry_self _ _ hnodup]

/-- C8 counterexample: the UUID guard is Python's `re.match` with a `$`
anchor, which also accepts a UUID followed by one trailing newline.  With
`home_id = "<uuid>\n"` — not a well-formed UUID — validation passes and the
call proceeds all the way through the cache lookup, the rate-limiter
acquisition and the network request instead of raising `ApiError`
synchronously. -/
theorem rewardHistory_trailing_newline_uuid_counterexample :
    wellFormedUuid "12345678-1234-1234-1234-123456789abc\n" = false ∧
    (async_get_grid_rewards_history (ApiCache.empty 300) 0 0 12 15
        "12345678-1234-1234-1234-123456789abc\n" "2024-05-01T00:00:00+00:00"
        "2024-05-02T00:00:00+00:00" false (.ok ⟨none⟩)).2.2 =
      [.cacheGet, .rateLimiterAcquire, .networkRequest] ∧
    (async_get_grid_rewards_history (ApiCache.empty 300) 0 0 12 15
        "12345678-1234-1234-1234-123456789abc\n" "2024-05-01T00:00:00+00:00"
        "2024-05-02T00:00:00+00:00" false (.ok ⟨none⟩)).2.1 =
      .ok default_return :=
  ⟨rfl, rfl, rfl⟩

/-- C8 (amended): whenever the input fails the checks the code actually
performs — the `home_id` does not match `UUID_PATTERN` (which is the
well-formed-UUID shape up to one tolerated trailing newline), or either date
string does not parse — the call raises `ApiError` synchronously: the cache
is untouched and the effect trace is empty (no cache access, no rate-limiter
acquisition, no network request). -/
theorem rewardHistory_invalid_input_no_effects
    (cache : ApiCache RewardsRecord) (now nowEpoch : ℚ) (uh ud : ℕ)
    (home_id from_d to_d : String) (daily : Bool)
    (resp : Except PyError GqlRewardsResponse)
    (hbad : uuidPatternMatch home_id = false ∨
      fromisoformat (replaceZ from_d) = none ∨
      fromisoformat (replaceZ to_d) = none) :
    ∃ msg, async_get_grid_rewards_history cache now nowEpoch uh ud home_id
      from_d to_d daily resp = (cache, .error (.apiError msg), []) := by
  by_cases h1 : home_id = ""
  · exact ⟨"Invalid home_id provided",
      by simp [async_get_grid_rewards_history, h1]⟩
  by_cases h2 : uuidPatternMatch home_id = true
  · by_cases h3 : from_d = ""
    · refine ⟨"Invalid from_date provided", ?_⟩
      simp [async_get_grid_rewards_history, h1, h2, h3]
    by_cases h4 : to_d = ""
    · refine ⟨"Invalid to_date provided", ?_⟩
      simp [async_get_grid_rewards_history, h1, h2, h3, h4]
    refine ⟨"Invalid date format", ?_⟩
    rcases hbad with hb | hb | hb
    · rw [h2] at hb
      exact absurd hb (by simp)
    · simp [async_get_grid_rewards_history, h1, h2, h3, h4, hb]
    · cases hfrom : fromisoformat (replaceZ from_d) with
      | none => simp [async_get_grid_rewards_history, h1, h2, h3, h4, hfrom]
      | some fdt =>
        simp [async_get_grid_rewards_history, h1, h2, h3, h4, hfrom, hb]
  · refine ⟨"Invalid home_id - Must be a valid UUID", ?_⟩
    simp [async_get_grid_rewards_history, h1, h2]

/-- C8 witness: the spec's own example `getRewardHistory("not-a-uuid", ...)`
raises `ApiError` with an empty effect trace. -/
theorem rewardHistory_invalid_input_no_effects_witness :
    (uuidPatternMatch "not-a-uuid" = false ∨
      fromisoformat (replaceZ "2024-05-01T00:00:00+00:00") = none ∨
      fromisoformat (replaceZ "2024-05-02T00:00:00+00:00") = none) ∧
    ∃ msg, async_get_grid_rewards_history (ApiCache.empty 300) 0 0 12 15
      "not-a-uuid" "2024-05-01T00:00:00+00:00" "2024-05-02T00:00:00+00:00"
      false (.ok ⟨none⟩) = (ApiCache.empty 300, .error (.apiError msg), []) :=
  ⟨Or.inl (by decide),
   rewardHistory_invalid_input_no_effects (ApiCache.empty 300) 0 0 12 15
     "not-a-uuid" "2024-05-01T00:00:00+00:00" "2024-05-02T00:00:00+00:00"
     false (.ok ⟨none⟩) (Or.inl (by decide))⟩

/-- C9: a call that passes validation, misses the cache and receives a
response whose `gridRewardsHistoryPeriod` is null or absent returns the
all-null sentinel record — it does not raise — and performs exactly the
lookup, the rate-limiter acquisition and the network request. -/
theorem rewardHistory_null_period_returns_sentinel
    (cache : ApiCache RewardsRecord) (now nowEpoch : ℚ) (uh ud : ℕ)
    (home_id from_d to_d : String) (daily : Bool)
    (fdt tdt : IsoDateTime) (off : ℤ)
    (hid : uuidPatternMatch home_id = true)
    (hf : fromisoformat (replaceZ from_d) = some fdt)
    (ht : fromisoformat (replaceZ to_d) = some tdt)
    (hoff : tdt.offset = some off)
    (hmiss : (cache.get now "get_grid_rewards"
        (rewardsKwargs home_id from_d to_d daily)).2 = none) :
    (async_get_grid_rewards_history cache now nowEpoch uh ud home_id from_d
        to_d daily (.ok ⟨none⟩)).2.1 = .ok default_return ∧
    (async_get_grid_rewards_history cache now nowEpoch uh ud home_id from_d
        to_d daily (.ok ⟨none⟩)).2.2 =
      [.cacheGet, .rateLimiterAcquire, .networkRequest] := by
  rw [rewardHistory_null_eval cache now nowEpoch uh ud home_id from_d to_d
    daily fdt tdt off hid hf ht hoff hmiss]
  exact ⟨rfl, rfl⟩

/-- C9 witness: a concrete valid call against an empty cache whose response
carries a null `gridRewardsHistoryPeriod`. -/
theorem rewardHistory_null_period_returns_sentinel_witness :
    (uuidPatternMatch "12345678-1234-1234-1234-123456789abc" = true ∧
      fromisoformat (replaceZ "2024-05-01T00:00:00+00:00") =
        some ⟨2024, 5, 1, 0, 0, 0, 0, some 0⟩ ∧
      fromisoformat (replaceZ "2024-05-02T00:00:00+00:00") =
        some ⟨2024, 5, 2, 0, 0, 0, 0, some 0⟩ ∧
      ((ApiCache.empty 300 : ApiCache RewardsRecord).get 0 "get_grid_rewards"
        (rewardsKwargs "12345678-1234-1234-1234-123456789abc"
          "2024-05-01T00:00:00+00:00" "2024-05-02T00:00:00+00:00" false)).2 =
        none) ∧
    ((async_get_grid_rewards_history (ApiCache.empty 300) 0 0 12 15
        "12345678-1234-1234-1234-123456789abc" "2024-05-01T00:00:00+00:00"
        "2024-05-02T00:00:00+00:00" false (.ok ⟨none⟩)).2.1 =
          .ok default_return ∧
      (async_get_grid_rewards_history (ApiCache.empty 300) 0 0 12 15
        "12345678-1234-1234-1234-123456789abc" "2024-05-01T00:00:00+00:00"
        "2024-05-02T00:00:00+00:00" false (.ok ⟨none⟩)).2.2 =
          [.cacheGet, .rateLimiterAcquire, .networkRequest]) :=
  ⟨⟨by decide, by decide, by decide, by decide⟩,
   rewardHistory_null_period_returns_sentinel (ApiCache.empty 300) 0 0 12 15
     "12345678-1234-1234-1234-123456789abc" "2024-05-01T00:00:00+00:00"
     "2024-05-02T00:00:00+00:00" false ⟨2024, 5, 1, 0, 0, 0, 0, some 0⟩
     ⟨2024, 5, 2, 0, 0, 0, 0, some 0⟩ 0 (by decide) (by decide) (by decide)
     (by decide) (by decide)⟩

/-- C10 counterexample: on the sentinel path the cache contents are not
always unchanged.  Start from a cache holding one **expired** entry under
exactly the requested key (stored at 0, expired at 5, clock now at 10): the
call returns the sentinel and writes nothing, yet the initial lookup lazily
purges the expired entry, so the cache contents after the call (empty)
differ from before (one entry). -/
theorem rewardHistory_sentinel_cache_changed_counterexample :
    (async_get_grid_rewards_history
        ⟨[(make_key "get_grid_rewards"
            (rewardsKwargs "12345678-1234-1234-1234-123456789abc"
              "2024-05-01T00:00:00+00:00" "2024-05-02T00:00:00+00:00" false),
           (default_return, 5, 0))], 300, 0, 0⟩ 10 0 12 15
        "12345678-1234-1234-1234-123456789abc" "2024-05-01T00:00:00+00:00"
        "2024-05-02T00:00:00+00:00" false (.ok ⟨none⟩)).2.1 =
      .ok default_return ∧
    (async_get_grid_rewards_history
        ⟨[(make_key "get_grid_rewards"
            (rewardsKwargs "12345678-1234-1234-1234-123456789abc"
              "2024-05-01T00:00:00+00:00" "2024-05-02T00:00:00+00:00" false),
           (default_return, 5, 0))], 300, 0, 0⟩ 10 0 12 15
        "12345678-1234-1234-1234-123456789abc" "2024-05-01T00:00:00+00:00"
        "2024-05-02T00:00:00+00:00" false (.ok ⟨none⟩)).1.cache = [] ∧
    ((⟨[(make_key "get_grid_rewards"
          (rewardsKwargs "12345678-1234-1234-1234-123456789abc"
            "2024-05-01T00:00:00+00:00" "2024-05-02T00:00:00+00:00" false),
         (default_return, 5, 0))], 300, 0, 0⟩ : ApiCache RewardsRecord).cache
      ≠ []) := by
  have hget : ((⟨[(make_key "get_grid_rewards"
        (rewardsKwargs "12345678-1234-1234-1234-123456789abc"
          "2024-05-01T00:00:00+00:00" "2024-05-02T00:00:00+00:00" false),
       (default_return, 5, 0))], 300, 0, 0⟩ : ApiCache RewardsRecord).get 10
        "get_grid_rewards"
        (rewardsKwargs "12345678-1234-1234-1234-123456789abc"
          "2024-05-01T00:00:00+00:00" "2024-05-02T00:00:00+00:00" false)) =
      (⟨[], 300, 0, 1⟩, none) := by
    have h105 : ¬ ((10 : ℚ) < 5) := by norm_num
    simp [ApiCache.get, lookupEntry, eraseEntry, h105]
  have heval := rewardHistory_null_eval
    ⟨[(make_key "get_grid_rewards"
        (rewardsKwargs "12345678-1234-1234-1234-123456789abc"
          "2024-05-01T00:00:00+00:00" "2024-05-02T00:00:00+00:00" false),
       (default_return, 5, 0))], 300, 0, 0⟩ 10 0 12 15
    "12345678-1234-1234-1234-123456789abc" "2024-05-01T00:00:00+00:00"
    "2024-05-02T00:00:00+00:00" false ⟨2024, 5, 1, 0, 0, 0, 0, some 0⟩
    ⟨2024, 5, 2, 0, 0, 0, 0, some 0⟩ 0 (by decide) (by decide) (by decide)
    (by decide) (by rw [hget])
  rw [heval, hget]
  exact ⟨rfl, rfl, by simp⟩

/-- C10 (amended): on the sentinel path no cache entry is written: the cache
after the call is exactly the post-lookup state — the lookup may at most
purge an expired entry under the same key, as every `get` does — the entry
for the key is absent afterwards (so a subsequent identical call is again a
miss), and the effect trace carries no `cacheSet`; only the successful-parse
path stores a result. -/
theorem rewardHistory_sentinel_no_cache_write
    (cache : ApiCache RewardsRecord) (now nowEpoch : ℚ) (uh ud : ℕ)
    (home_id from_d to_d : String) (daily : Bool)
    (fdt tdt : IsoDateTime) (off : ℤ)
    (hnodup : (cache.cache.map Prod.fst).Nodup)
    (hid : uuidPatternMatch home_id = true)
    (hf : fromisoformat (replaceZ from_d) = some fdt)
    (ht : fromisoformat (replaceZ to_d) = some tdt)
    (hoff : tdt.offset = some off)
    (hmiss : (cache.get now "get_grid_rewards"
        (rewardsKwargs home_id from_d to_d daily)).2 = none) :
    (async_get_grid_rewards_history cache now nowEpoch uh ud home_id from_d
        to_d daily (.ok ⟨none⟩)).1 =
      (cache.get now "get_grid_rewards"
        (rewardsKwargs home_id from_d to_d daily)).1 ∧
    lookupEntry
      (make_key "get_grid_rewards" (rewardsKwargs home_id from_d to_d daily))
      (async_get_grid_rewards_history cache now nowEpoch uh ud home_id from_d
        to_d daily (.ok ⟨none⟩)).1.cache = none ∧
    Effect.cacheSet ∉
      (async_get_grid_rewards_history cache now nowEpoch uh ud home_id from_d
        to_d daily (.ok ⟨none⟩)).2.2 := by
  rw [rewardHistory_null_eval cache now nowEpoch uh ud home_id from_d to_d
    daily fdt tdt off hid hf ht hoff hmiss]
  refine ⟨rfl, ?_, by simp⟩
  exact lookupEntry_get_of_miss cache now "get_grid_rewards"
    (rewardsKwargs home_id from_d to_d daily) hnodup hmiss

/-- C10 witness: the empty cache (trivially distinct keys) with a concrete
valid call. -/
theorem rewardHistory_sentinel_no_cache_write_witness :
    (((ApiCache.empty 300 : ApiCache RewardsRecord).cache.map Prod.fst).Nodup ∧
      uuidPatternMatch "12345678-1234-1234-1234-123456789abc" = true ∧
      ((ApiCache.empty 300 : ApiCache RewardsRecord).get 0 "get_grid_rewards"
        (rewardsKwargs "12345678-1234-1234-1234-123456789abc"
          "2024-05-01T00:00:00+00:00" "2024-05-02T00:00:00+00:00" false)).2 =
        none) ∧
    ((async_get_grid_rewards_history (ApiCache.empty 300) 0 0 12 15
        "12345678-1234-1234-1234-123456789abc" "2024-05-01T00:00:00+00:00"
        "2024-05-02T00:00:00+00:00" false (.ok ⟨none⟩)).1 =
      ((ApiCache.empty 300 : ApiCache RewardsRecord).get 0 "get_grid_rewards"
        (rewardsKwargs "12345678-1234-1234-1234-123456789abc"
          "2024-05-01T00:00:00+00:00" "2024-05-02T00:00:00+00:00" false)).1 ∧
    lookupEntry
      (make_key "get_grid_rewards"
        (rewardsKwargs "12345678-1234-1234-1234-123456789abc"
          "2024-05-01T00:00:00+00:00" "2024-05-02T00:00:00+00:00" false))
      (async_get_grid_rewards_history (ApiCache.empty 300) 0 0 12 15
        "12345678-1234-1234-1234-123456789abc" "2024-05-01T00:00:00+00:00"
        "2024-05-02T00:00:00+00:00" false (.ok ⟨none⟩)).1.cache = none ∧
    Effect.cacheSet ∉
      (async_get_grid_rewards_history (ApiCache.empty 300) 0 0 12 15
        "12345678-1234-1234-1234-123456789abc" "2024-05-01T00:00:00+00:00"
        "2024-05-02T00:00:00+00:00" false (.ok ⟨none⟩)).2.2) :=
  ⟨⟨by decide, by decide, by decide⟩,
   rewardHistory_sentinel_no_cache_write (ApiCache.empty 300) 0 0 12 15
     "12345678-1234-1234-1234-123456789abc" "2024-05-01T00:00:00+00:00"
     "2024-05-02T00:00:00+00:00" false ⟨2024, 5, 1, 0, 0, 0, 0, some 0⟩
     ⟨2024, 5, 2, 0, 0, 0, 0, some 0⟩ 0 (by decide) (by decide) (by decide)
     (by decide) (by decide) (by decide)⟩

end TibberSpec
